import Mathlib

/-!
Verification of the PorkiCoder billing backend (`StripeService`).

The repository contains three near-duplicate revisions of the service; the
spec designates the most complete one (event-timestamp handling, `canceling`
synthesis, calendar-aware period-end fallback) as canonical, and that is the
revision embedded here.  Store reads/writes are modelled as pure state
passing on the single user-quota record addressed by an operation; store
transport failures are out of scope.  All `Date` arithmetic in the source
runs in UTC (the container sets no timezone), so epoch-millisecond
arithmetic over a proleptic Gregorian civil calendar models it exactly.
-/

namespace Porki

/-! ## Civil-calendar arithmetic (JavaScript `Date` semantics, UTC)

`daysFromCivil`/`civilFromDays` convert between days-since-epoch and
Gregorian (year, month 1..12, day) triples.  `daysFromCivil` is linear in
the day argument, which reproduces exactly the JavaScript `Date` overflow
normalization (`setMonth` of a day-31 date into a 30-day month rolls into
the next month, `setDate(getDate() + n)` adds `n` days, `setFullYear` on
Feb 29 of a non-leap target rolls to Mar 1). -/

/-- Days since 1970-01-01 of the civil date `(y, m, d)`, `m ∈ 1..12`,
with `d` unconstrained (out-of-range days normalize linearly, as in JS). -/
def daysFromCivil (y m d : Int) : Int :=
  let y' := if m ≤ 2 then y - 1 else y
  let era := y'.fdiv 400
  let yoe := y' - era * 400
  let mp := (m + 9) % 12
  let doy := (153 * mp + 2).fdiv 5 + d - 1
  let doe := yoe * 365 + yoe.fdiv 4 - yoe.fdiv 100 + doy
  era * 146097 + doe - 719468

/-- Civil date `(y, m, d)` of a days-since-1970-01-01 count. -/
def civilFromDays (z : Int) : Int × Int × Int :=
  let z' := z + 719468
  let era := z'.fdiv 146097
  let doe := z' - era * 146097
  let yoe := (doe - doe.fdiv 1460 + doe.fdiv 36524 - doe.fdiv 146096).fdiv 365
  let y := yoe + era * 400
  let doy := doe - (365 * yoe + yoe.fdiv 4 - yoe.fdiv 100)
  let mp := (5 * doy + 2).fdiv 153
  let d := doy - (153 * mp + 2).fdiv 5 + 1
  let m := if mp < 10 then mp + 3 else mp - 9
  (if m ≤ 2 then y + 1 else y, m, d)

/-- `d.setDate(d.getDate() + n)` on an epoch-millisecond timestamp:
adds `n` civil days. -/
def jsAddDays (t n : Int) : Int :=
  t + n * 86400000

/-- `d.setMonth(d.getMonth() + k)` on an epoch-millisecond timestamp:
calendar-aware month addition with JS day-overflow normalization,
time-of-day preserved. -/
def jsSetMonthAdd (t k : Int) : Int :=
  let day := t.fdiv 86400000
  let rem := t - day * 86400000
  let c := civilFromDays day
  let total := c.1 * 12 + (c.2.1 - 1) + k
  let y' := total.fdiv 12
  let m' := total - y' * 12
  daysFromCivil y' (m' + 1) c.2.2 * 86400000 + rem

/-- `d.setFullYear(d.getFullYear() + k)` on an epoch-millisecond
timestamp: calendar-aware year addition, time-of-day preserved. -/
def jsSetFullYearAdd (t k : Int) : Int :=
  let day := t.fdiv 86400000
  let rem := t - day * 86400000
  let c := civilFromDays day
  daysFromCivil (c.1 + k) c.2.1 c.2.2 * 86400000 + rem

/-! ## JavaScript truthiness on optional fields

The source probes payload fields with bare `if (x)` / `x || default`
tests; numbers are falsy exactly when `0` (or absent), strings exactly
when empty (or absent). -/

/-- Truthiness of an optional JS number (`undefined`/`null`/`0` falsy). -/
def jsTruthyInt : Option Int → Bool
  | none => false
  | some v => v != 0

/-- Truthiness of an optional JS string (`undefined`/`null`/`""` falsy). -/
def jsTruthyStr : Option String → Bool
  | none => false
  | some s => s != ""

/-- JS `x || d` on an optional number. -/
def jsOrInt (x : Option Int) (d : Int) : Int :=
  if jsTruthyInt x then x.getD d else d

/-- JS `x || d` on an optional string. -/
def jsOrStr (x : Option String) (d : String) : String :=
  if jsTruthyStr x then x.getD d else d

/-! ## Event payload shapes

Webhook payloads are duck-typed in the source: every handler receives
`event.data.object` and probes the fields it needs, so a single record
with optional fields models the heterogeneous shapes.  Timestamps carried
by payloads are epoch seconds (`Int`, as JS numbers). -/

/-- `subscription.plan` sub-object. -/
structure Plan where
  interval : Option String
  interval_count : Option Int
  deriving Repr, DecidableEq

/-- One entry of `subscription.items.data`.  The source indexes
`items.data[0].current_period_end` without a presence check, so the field
is mandatory here. -/
structure SubItem where
  current_period_end : Int
  deriving Repr, DecidableEq

/-- `subscription.items` sub-object (`data` is the item array). -/
structure SubItems where
  data : Option (List SubItem)
  deriving Repr, DecidableEq

/-- The duck-typed `event.data.object`: the union of every field the
canonical handlers read from subscription and checkout-session payloads. -/
structure EventObject where
  customer : String
  id : String
  status : String
  cancel_at_period_end : Option Bool
  current_period_end : Option Int
  items : Option SubItems
  billing_cycle_anchor : Int
  plan : Option Plan
  metadata_userId : Option String
  deriving Repr, DecidableEq

/-- A signature-verified webhook event: the discriminating `type` string,
the embedded object, and the provider-assigned creation timestamp
(epoch seconds). -/
structure Event where
  type : String
  obj : EventObject
  created : Int
  deriving Repr, DecidableEq

/-! ## The user quota record and store

One row of `user_request_limits`.  Nullable columns are `Option`; the
store state visible to an operation is the (at most one) record it
addresses, hence `Store := Option UserRecord`. -/

/-- One `user_request_limits` row. -/
structure UserRecord where
  user_id : String
  request_count : Option Int
  is_premium : Option Bool
  subscription_status : Option String
  subscription_end_date : Option Int
  subscription_id : Option String
  stripe_customer_id : Option String
  last_webhook_timestamp : Option Int
  updated_at : Option Int
  deriving Repr, DecidableEq

/-- The store slice an operation addresses: the record for one user /
customer, or `none` when no such row exists. -/
abbrev Store := Option UserRecord

/-- `ensureUserRecord`: create-iff-absent with
`request_count = 0, is_premium = false` (source lines 356-377). -/
def ensureUserRecord (userId : String) : Store → Store
  | none => some
      { user_id := userId
        request_count := some 0
        is_premium := some false
        subscription_status := none
        subscription_end_date := none
        subscription_id := none
        stripe_customer_id := none
        last_webhook_timestamp := none
        updated_at := none }
  | some r => some r

/-! ## Quota gate (`validateAndIncrementRequest`, source lines 16-69) -/

/-- `FREE_USER_REQUEST_LIMIT` (source line 4). -/
def FREE_USER_REQUEST_LIMIT : Int := 5

/-- The denial message built at source line 40. -/
def freeLimitMessage : String :=
  "You have reached your free request limit of 5 requests. Please upgrade to PorkiCoder Premium for unlimited requests."

/-- The object `validateAndIncrementRequest` returns; `limit` and
`message` are present only on the denial shape. -/
structure QuotaResult where
  allowed : Bool
  isPremium : Bool
  requestCount : Int
  limit : Option Int
  message : Option String
  deriving Repr, DecidableEq

/-- `validateAndIncrementRequest(userId)`: ensure the record, read
`is_premium || false` and `request_count || 0`, deny without mutation at
the limit, otherwise increment (non-premium) or leave unchanged
(premium).  `now` is the wall-clock value written to `updated_at`. -/
def validateAndIncrementRequest (userId : String) (now : Int) (st : Store) :
    Store × QuotaResult :=
  let st₁ := ensureUserRecord userId st
  match st₁ with
  | none =>
      (none, { allowed := false, isPremium := false, requestCount := 0,
               limit := none, message := none })
  | some r =>
      let isPremium := r.is_premium.getD false
      let currentCount := jsOrInt r.request_count 0
      if !isPremium && currentCount ≥ FREE_USER_REQUEST_LIMIT then
        (some r,
          { allowed := false, isPremium := isPremium,
            requestCount := currentCount,
            limit := some FREE_USER_REQUEST_LIMIT,
            message := some freeLimitMessage })
      else if !isPremium then
        (some { r with request_count := some (currentCount + 1),
                       updated_at := some now },
          { allowed := true, isPremium := isPremium,
            requestCount := currentCount + 1,
            limit := none, message := none })
      else
        (some r,
          { allowed := true, isPremium := isPremium,
            requestCount := currentCount,
            limit := none, message := none })

/-- `n` successive `validateAndIncrementRequest` calls for the same user;
the `Bool` is the conjunction of the returned `allowed` flags. -/
def repeatCalls (userId : String) (now : Int) : Nat → Store → Store × Bool
  | 0, st => (st, true)
  | n + 1, st =>
      let (st', res) := validateAndIncrementRequest userId now st
      let (st'', rest) := repeatCalls userId now n st'
      (st'', res.allowed && rest)

/-! ## Event normalizer (`handleSubscriptionUpdate`, source lines 141-172) -/

/-- Canonical status (source lines 144-149): the subscription's status
verbatim, overridden to `"canceling"` when
`cancel_at_period_end === true` and the status is `"active"`. -/
def canonicalStatus (sub : EventObject) : String :=
  if sub.cancel_at_period_end = some true ∧ sub.status = "active" then
    "canceling"
  else
    sub.status

/-- Period-end resolution (source lines 151-172), returning epoch
milliseconds: the truthy top-level `current_period_end`; else the first
entry of a non-empty `items.data`; else the billing-cycle anchor advanced
by `(plan?.interval || 'month')` times `(plan?.interval_count || 1)`
with JS `Date` calendar semantics (an unrecognized interval string leaves
the anchor unchanged). -/
def resolvePeriodEnd (sub : EventObject) : Int :=
  if jsTruthyInt sub.current_period_end then
    sub.current_period_end.getD 0 * 1000
  else
    match sub.items with
    | some its =>
        match its.data with
        | some (item :: _) => item.current_period_end * 1000
        | _ => resolveFallback sub
    | none => resolveFallback sub
where
  /-- The `billing_cycle_anchor` fallback branch (source lines 158-171). -/
  resolveFallback (sub : EventObject) : Int :=
    let interval := jsOrStr (sub.plan.bind Plan.interval) "month"
    let intervalCount := jsOrInt (sub.plan.bind Plan.interval_count) 1
    let anchor := sub.billing_cycle_anchor * 1000
    if interval = "month" then jsSetMonthAdd anchor intervalCount
    else if interval = "year" then jsSetFullYearAdd anchor intervalCount
    else if interval = "week" then jsAddDays anchor (7 * intervalCount)
    else if interval = "day" then jsAddDays anchor intervalCount
    else anchor

/-! ## Reconciliation procedure

Modelled from the spec: the stored procedure
`update_premium_status_from_webhook` lives in the database, not in this
repository; only its call sites are in the source.  Spec §4.2 specifies it
as a pure function of the current record and the canonical tuple:
(1) locating no record for the customer is a failure; (2) an event
timestamp strictly older than the stored `lastWebhookTimestamp` is
rejected as a no-op; (3) a `canceling` status must not overwrite an
already-`canceled` record unless the event timestamp is strictly newer
and the subscription id matches the canceled one; (4) an accepted event
sets `isPremium = (status ∈ {active, canceling})`, the status, the end
date, `lastWebhookTimestamp` and `updatedAt`.  Rule (3) requires the
record to remember the subscription id, hence the `subscription_id`
field. -/

/-- The argument tuple of `update_premium_status_from_webhook`
(source lines 184-190): customer id, subscription id, canonical status,
period-end date, event timestamp. -/
structure RpcArgs where
  customerId : String
  subscriptionId : String
  status : String
  endDate : Int
  webhookTimestamp : Int
  deriving Repr, DecidableEq

/-- Modelled from the spec: the record an accepted event produces,
rule (4): `isPremium = (status ∈ {active, canceling})`, status, end date,
subscription id, event timestamp and `updatedAt` written, everything
else untouched. -/
def acceptRecord (r : UserRecord) (a : RpcArgs) (now : Int) : UserRecord :=
  { r with
      is_premium := some (a.status = "active" ∨ a.status = "canceling")
      subscription_status := some a.status
      subscription_end_date := some a.endDate
      subscription_id := some a.subscriptionId
      last_webhook_timestamp := some a.webhookTimestamp
      updated_at := some now }

/-- Modelled from the spec: whether rule (2) rejects — the event
timestamp is strictly older than the stored `lastWebhookTimestamp`. -/
def staleEvent (r : UserRecord) (a : RpcArgs) : Bool :=
  match r.last_webhook_timestamp with
  | some t => a.webhookTimestamp < t
  | none => false

/-- Modelled from the spec: whether rule (3) rejects — an incoming
`canceling` must not overwrite a `canceled` record unless the event is
strictly newer and targets the same subscription id. -/
def precedenceReject (r : UserRecord) (a : RpcArgs) : Bool :=
  let newer : Bool :=
    match r.last_webhook_timestamp with
    | some t => t < a.webhookTimestamp
    | none => true
  r.subscription_status = some "canceled" && a.status = "canceling" &&
    !(newer && r.subscription_id = some a.subscriptionId)

/-- Modelled from the spec: rules (2)-(4) of the reconciliation
procedure on an existing record.  Returns the possibly-updated record and
the `updated` flag the RPC reports back. -/
def reconcileRecord (r : UserRecord) (a : RpcArgs) (now : Int) :
    UserRecord × Bool :=
  if staleEvent r a || precedenceReject r a then (r, false)
  else (acceptRecord r a now, true)

/-- The reconciliation procedure either rejects with the record intact
or accepts with exactly the rule-(4) field updates. -/
theorem reconcileRecord_spec (r : UserRecord) (a : RpcArgs) (now : Int) :
    reconcileRecord r a now = (r, false) ∨
    (staleEvent r a = false ∧
      reconcileRecord r a now = (acceptRecord r a now, true)) := by
  unfold reconcileRecord
  by_cases h : (staleEvent r a || precedenceReject r a) = true
  · left
    simp [h]
  · right
    simp only [Bool.or_eq_true, not_or, Bool.not_eq_true] at h
    simp [h.1, h.2]

/-- Modelled from the spec: rule (1) — a webhook for a customer with no
record is surfaced as a failure, never fabricated. -/
def reconcile (st : Store) (a : RpcArgs) (now : Int) :
    Except String (Store × Bool) :=
  match st with
  | none => .error "unknown customer"
  | some r => .ok (some (reconcileRecord r a now).1, (reconcileRecord r a now).2)

/-! ## Webhook handlers (source lines 114-275) and dispatcher (71-112) -/

/-- `handleCheckoutCompleted` (source lines 114-139): a falsy
`session.metadata?.userId` is a logged no-op; otherwise ensure the record
and write `stripe_customer_id := session.customer`. -/
def handleCheckoutCompleted (session : EventObject) (now : Int) (st : Store) :
    Store :=
  if jsTruthyStr session.metadata_userId then
    match ensureUserRecord (session.metadata_userId.getD "") st with
    | none => none
    | some r =>
        some { r with stripe_customer_id := some session.customer,
                      updated_at := some now }
  else
    st

/-- `handleSubscriptionUpdate` (source lines 141-218): normalize the
canonical tuple and hand it to the reconciliation procedure. -/
def handleSubscriptionUpdate (sub : EventObject) (eventTimestamp now : Int)
    (st : Store) : Except String (Store × Bool) :=
  reconcile st
    { customerId := sub.customer
      subscriptionId := sub.id
      status := canonicalStatus sub
      endDate := resolvePeriodEnd sub
      webhookTimestamp := eventTimestamp }
    now

/-- `handleSubscriptionDeleted` (source lines 220-247): status forced to
`"canceled"`, end date is the processing wall time `now`
(`new Date()`), not a payload field. -/
def handleSubscriptionDeleted (sub : EventObject) (eventTimestamp now : Int)
    (st : Store) : Except String (Store × Bool) :=
  reconcile st
    { customerId := sub.customer
      subscriptionId := sub.id
      status := "canceled"
      endDate := now
      webhookTimestamp := eventTimestamp }
    now

/-- `handleInvoicePaymentSucceeded` (source lines 249-261): logging only,
no store access. -/
def handleInvoicePaymentSucceeded (st : Store) : Store := st

/-- `handleInvoicePaymentFailed` (source lines 263-275): logging only,
no store access. -/
def handleInvoicePaymentFailed (st : Store) : Store := st

/-- The dispatcher switch of `handleWebhook` (source lines 86-112), after
signature verification has succeeded.  Handler errors propagate; the
default branch logs and succeeds. -/
def handleWebhook (ev : Event) (now : Int) (st : Store) :
    Except String Store :=
  if ev.type = "checkout.session.completed" then
    .ok (handleCheckoutCompleted ev.obj now st)
  else if ev.type = "customer.subscription.created" ∨
      ev.type = "customer.subscription.updated" then
    (handleSubscriptionUpdate ev.obj ev.created now st).map Prod.fst
  else if ev.type = "customer.subscription.deleted" then
    (handleSubscriptionDeleted ev.obj ev.created now st).map Prod.fst
  else if ev.type = "invoice.paid" ∨ ev.type = "invoice.payment_succeeded" then
    .ok (handleInvoicePaymentSucceeded st)
  else if ev.type = "invoice.payment_failed" then
    .ok (handleInvoicePaymentFailed st)
  else
    .ok st

/-! ## Checkout-session creation (`createCheckoutSession`,
source lines 277-315) -/

/-- The slice of the created provider checkout session the backend later
depends on: the customer it is bound to and the `userId` metadata. -/
structure CheckoutSession where
  customer : String
  metadata_userId : Option String
  deriving Repr, DecidableEq

/-- `createCheckoutSession` (source lines 277-315): ensure the record,
reuse a truthy stored `stripe_customer_id`, otherwise create a provider
customer (`freshCustomerId` stands for the provider's reply) and persist
it, then build the session against that customer with the user id in the
metadata. -/
def createCheckoutSession (userId freshCustomerId : String) (st : Store) :
    Store × CheckoutSession :=
  match ensureUserRecord userId st with
  | none => (none, { customer := freshCustomerId, metadata_userId := some userId })
  | some r =>
      if jsTruthyStr r.stripe_customer_id then
        (some r,
          { customer := r.stripe_customer_id.getD "",
            metadata_userId := some userId })
      else
        (some { r with stripe_customer_id := some freshCustomerId },
          { customer := freshCustomerId, metadata_userId := some userId })

/-- Lift a checkout session back to the duck-typed event object shape it
arrives in on the `checkout.session.completed` webhook (only the
`customer` and metadata fields are read on that path). -/
def sessionObject (s : CheckoutSession) : EventObject :=
  { customer := s.customer
    id := ""
    status := ""
    cancel_at_period_end := none
    current_period_end := none
    items := none
    billing_cycle_anchor := 0
    plan := none
    metadata_userId := s.metadata_userId }

/-! ## Sample data used by witnesses -/

/-- A plain active subscription object. -/
def baseObj : EventObject :=
  { customer := "cus_1"
    id := "sub_1"
    status := "active"
    cancel_at_period_end := none
    current_period_end := none
    items := none
    billing_cycle_anchor := 86400
    plan := none
    metadata_userId := none }

/-- A non-premium record sitting exactly at the free limit. -/
def recFree5 : UserRecord :=
  { user_id := "u1"
    request_count := some 5
    is_premium := some false
    subscription_status := none
    subscription_end_date := none
    subscription_id := none
    stripe_customer_id := none
    last_webhook_timestamp := none
    updated_at := none }

/-- A non-premium record with two requests consumed. -/
def recFree2 : UserRecord :=
  { recFree5 with request_count := some 2 }

/-- A premium record. -/
def recPremium : UserRecord :=
  { recFree5 with is_premium := some true, request_count := some 9,
                  stripe_customer_id := some "cus_1",
                  subscription_status := some "active",
                  last_webhook_timestamp := some 1000 }

/-! ## Claim theorems -/

/-- C3: for every subscription-created/updated event, the canonical
status equals the subscription's status field verbatim, except that a
subscription flagged cancel-at-period-end whose status is `active` is
normalized to `canceling`. -/
theorem c3_canonical_status (sub : EventObject) :
    (sub.cancel_at_period_end = some true ∧ sub.status = "active" →
      canonicalStatus sub = "canceling") ∧
    (¬(sub.cancel_at_period_end = some true ∧ sub.status = "active") →
      canonicalStatus sub = sub.status) := by
  unfold canonicalStatus
  constructor <;> intro h <;> simp [h]

/-- C3 witness: the override fires on a flagged active subscription and
the status passes through verbatim on an unflagged one. -/
theorem c3_canonical_status_witness :
    canonicalStatus { baseObj with cancel_at_period_end := some true } =
      "canceling" ∧
    canonicalStatus baseObj = baseObj.status :=
  ⟨(c3_canonical_status { baseObj with cancel_at_period_end := some true }).1
      ⟨rfl, rfl⟩,
   (c3_canonical_status baseObj).2 (by simp [baseObj])⟩

/-- C4: a non-premium record at or past the free limit of 5 is denied:
the result carries `allowed = false`, the current count, the limit 5 and
the user-facing message, and the record is returned unchanged. -/
theorem c4_denial_at_limit (r : UserRecord) (now : Int)
    (hprem : r.is_premium.getD false = false)
    (hcount : jsOrInt r.request_count 0 ≥ FREE_USER_REQUEST_LIMIT) :
    validateAndIncrementRequest r.user_id now (some r) =
      (some r,
        { allowed := false, isPremium := false,
          requestCount := jsOrInt r.request_count 0,
          limit := some FREE_USER_REQUEST_LIMIT,
          message := some freeLimitMessage }) := by
  unfold validateAndIncrementRequest ensureUserRecord
  simp [hprem, hcount]

/-- C4 witness: the sixth request of a non-premium user with five
consumed is denied and the stored record is untouched. -/
theorem c4_denial_at_limit_witness :
    validateAndIncrementRequest recFree5.user_id 42 (some recFree5) =
      (some recFree5,
        { allowed := false, isPremium := false,
          requestCount := jsOrInt recFree5.request_count 0,
          limit := some FREE_USER_REQUEST_LIMIT,
          message := some freeLimitMessage }) :=
  c4_denial_at_limit recFree5 42 (by decide) (by decide)

/-- C8: a checkout-completed event whose metadata lacks the internal
user id is a no-op: the store (even an empty one) is unchanged and the
dispatcher reports success. -/
theorem c8_checkout_missing_userid (session : EventObject) (now : Int)
    (st : Store) (h : session.metadata_userId = none) :
    handleCheckoutCompleted session now st = st ∧
    (∀ created : Int,
      handleWebhook ⟨"checkout.session.completed", session, created⟩ now st =
        .ok st) := by
  have hfalse : jsTruthyStr session.metadata_userId = false := by
    simp [h, jsTruthyStr]
  constructor
  · unfold handleCheckoutCompleted
    simp [hfalse]
  · intro created
    unfold handleWebhook
    simp [handleCheckoutCompleted, hfalse]

/-- C8 witness: a metadata-less checkout completion against an empty
store creates nothing and succeeds. -/
theorem c8_checkout_missing_userid_witness :
    handleCheckoutCompleted { baseObj with metadata_userId := none } 5 none =
      none ∧
    handleWebhook
      ⟨"checkout.session.completed",
        { baseObj with metadata_userId := none }, 3⟩ 5 none = .ok none :=
  ⟨(c8_checkout_missing_userid { baseObj with metadata_userId := none } 5 none
      rfl).1,
   (c8_checkout_missing_userid { baseObj with metadata_userId := none } 5 none
      rfl).2 3⟩

/-- C9: a signature-valid event whose type is outside the handled
families completes successfully and leaves the store unchanged. -/
theorem c9_unknown_event_type (ev : Event) (now : Int) (st : Store)
    (h : ev.type ∉ (["checkout.session.completed",
      "customer.subscription.created", "customer.subscription.updated",
      "customer.subscription.deleted", "invoice.paid",
      "invoice.payment_succeeded", "invoice.payment_failed"] :
        List String)) :
    handleWebhook ev now st = .ok st := by
  simp only [List.mem_cons, List.mem_singleton, not_or] at h
  obtain ⟨h1, h2, h3, h4, h5, h6, h7, -⟩ := h
  unfold handleWebhook
  simp [h1, h2, h3, h4, h5, h6, h7]

/-- C9 witness: a `charge.refunded` event is acknowledged without
touching a populated store. -/
theorem c9_unknown_event_type_witness :
    handleWebhook ⟨"charge.refunded", baseObj, 10⟩ 11 (some recFree5) =
      .ok (some recFree5) :=
  c9_unknown_event_type ⟨"charge.refunded", baseObj, 10⟩ 11 (some recFree5)
    (by decide)

/-- C10: invoice events (`invoice.paid`, `invoice.payment_succeeded`,
`invoice.payment_failed`) perform no store write: the handlers are
identities on the store and the dispatcher returns it unchanged, so
every field of the record is preserved. -/
theorem c10_invoice_events_no_write (ev : Event) (now : Int) (st : Store)
    (h : ev.type = "invoice.paid" ∨ ev.type = "invoice.payment_succeeded" ∨
      ev.type = "invoice.payment_failed") :
    handleWebhook ev now st = .ok st ∧
    handleInvoicePaymentSucceeded st = st ∧
    handleInvoicePaymentFailed st = st := by
  refine ⟨?_, rfl, rfl⟩
  unfold handleWebhook
  rcases h with h | h | h <;> simp [h, handleInvoicePaymentSucceeded,
    handleInvoicePaymentFailed]

/-- C10 witness: an `invoice.paid` event leaves a premium record
byte-for-byte unchanged. -/
theorem c10_invoice_events_no_write_witness :
    handleWebhook ⟨"invoice.paid", baseObj, 10⟩ 11 (some recPremium) =
      .ok (some recPremium) :=
  (c10_invoice_events_no_write ⟨"invoice.paid", baseObj, 10⟩ 11
    (some recPremium) (Or.inl rfl)).1

/-- C1: for every record and every webhook event, the transition is
applied only when the event timestamp is at least the stored
`lastWebhookTimestamp`, and a strictly older event leaves the whole
record unchanged, whatever status it carries. -/
theorem c1_stale_event_rejected (r : UserRecord) (a : RpcArgs) (now : Int) :
    (∀ t, r.last_webhook_timestamp = some t → a.webhookTimestamp < t →
      reconcileRecord r a now = (r, false)) ∧
    ((reconcileRecord r a now).2 = true →
      ∀ t, r.last_webhook_timestamp = some t → t ≤ a.webhookTimestamp) := by
  have hstale : ∀ t, r.last_webhook_timestamp = some t →
      a.webhookTimestamp < t → reconcileRecord r a now = (r, false) := by
    intro t ht hlt
    unfold reconcileRecord
    have : staleEvent r a = true := by
      unfold staleEvent
      simp [ht, hlt]
    simp [this]
  constructor
  · exact hstale
  · intro hupd t ht
    by_contra hgt
    push_neg at hgt
    rw [hstale t ht hgt] at hupd
    simp at hupd

/-- C1 witness: an event one tick older than the stored timestamp is
rejected with the record intact, and an accepted event's timestamp is
indeed no older than the stored one. -/
theorem c1_stale_event_rejected_witness :
    reconcileRecord recPremium
      { customerId := "cus_1", subscriptionId := "sub_1",
        status := "canceled", endDate := 0, webhookTimestamp := 999 } 7 =
      (recPremium, false) ∧
    ((reconcileRecord recPremium
        { customerId := "cus_1", subscriptionId := "sub_1",
          status := "active", endDate := 0, webhookTimestamp := 1500 } 7).2 =
        true → (1000 : Int) ≤ 1500) :=
  ⟨(c1_stale_event_rejected recPremium
      { customerId := "cus_1", subscriptionId := "sub_1",
        status := "canceled", endDate := 0, webhookTimestamp := 999 } 7).1
      1000 rfl (by decide),
   fun h => (c1_stale_event_rejected recPremium
      { customerId := "cus_1", subscriptionId := "sub_1",
        status := "active", endDate := 0, webhookTimestamp := 1500 } 7).2
      h 1000 rfl⟩

/-- C7: a subscription-deletion event hands the reconciliation procedure
the status `"canceled"` and the processing time `now` as end date — the
outcome is independent of every payload field except the customer and
subscription ids — and an accepted deletion forces `isPremium = false`,
`subscriptionStatus = canceled` and the processing-time end date. -/
theorem c7_deletion_forces_canceled (sub sub' : EventObject)
    (eventTimestamp now : Int) (st : Store) :
    (handleSubscriptionDeleted sub eventTimestamp now st =
      reconcile st
        { customerId := sub.customer, subscriptionId := sub.id,
          status := "canceled", endDate := now,
          webhookTimestamp := eventTimestamp } now) ∧
    (sub.customer = sub'.customer → sub.id = sub'.id →
      handleSubscriptionDeleted sub eventTimestamp now st =
        handleSubscriptionDeleted sub' eventTimestamp now st) ∧
    (∀ r : UserRecord, st = some r →
      ∀ st' : Store,
        handleSubscriptionDeleted sub eventTimestamp now st =
          .ok (st', true) →
        ∃ r', st' = some r' ∧ r'.is_premium = some false ∧
          r'.subscription_status = some "canceled" ∧
          r'.subscription_end_date = some now) := by
  refine ⟨rfl, ?_, ?_⟩
  · intro hc hi
    unfold handleSubscriptionDeleted
    rw [hc, hi]
  · intro r hr st' hok
    subst hr
    simp only [handleSubscriptionDeleted, reconcile] at hok
    rcases reconcileRecord_spec r
      { customerId := sub.customer, subscriptionId := sub.id,
        status := "canceled", endDate := now,
        webhookTimestamp := eventTimestamp } now with hcase | ⟨-, hcase⟩ <;>
      rw [hcase] at hok <;>
      simp only [Except.ok.injEq, Prod.mk.injEq] at hok
  -- the reject case contradicts `updated = true`
    · exact absurd hok.2 (by simp)
    · refine ⟨_, hok.1.symm, ?_⟩
      unfold acceptRecord
      refine ⟨?_, rfl, rfl⟩
      simp

/-- C7 witness: deleting the premium user's subscription with a fresh
event timestamp yields an accepted update whose record is non-premium,
`canceled`, and dated at the processing time. -/
theorem c7_deletion_forces_canceled_witness :
    ∃ r', (handleSubscriptionDeleted baseObj 2000 77 (some recPremium) =
        .ok (some r', true) → r'.is_premium = some false ∧
          r'.subscription_status = some "canceled" ∧
          r'.subscription_end_date = some 77) ∧
      handleSubscriptionDeleted baseObj 2000 77 (some recPremium) =
        .ok (some r', true) := by
  refine ⟨acceptRecord recPremium
    { customerId := "cus_1", subscriptionId := "sub_1",
      status := "canceled", endDate := 77, webhookTimestamp := 2000 } 77,
    ?_, rfl⟩
  intro h
  have hmain := (c7_deletion_forces_canceled baseObj baseObj 2000 77
    (some recPremium)).2.2 recPremium rfl _ h
  obtain ⟨r'', hr'', hfields⟩ := hmain
  obtain rfl := Option.some.inj hr''
  exact hfields

/-- `jsOrInt x 0` on a present field is the field's value. -/
theorem jsOrInt_some_zero (v : Int) : jsOrInt (some v) 0 = v := by
  unfold jsOrInt jsTruthyInt
  by_cases h : v = 0 <;> simp [h]

/-- The allowed-increment step of the quota gate on a non-premium record
below the limit (source lines 44-63). -/
theorem validate_increment_step (r : UserRecord) (now : Int)
    (hprem : r.is_premium.getD false = false)
    (hcount : jsOrInt r.request_count 0 < FREE_USER_REQUEST_LIMIT) :
    ∀ userId, validateAndIncrementRequest userId now (some r) =
      (some { r with request_count := some (jsOrInt r.request_count 0 + 1),
                     updated_at := some now },
        { allowed := true, isPremium := false,
          requestCount := jsOrInt r.request_count 0 + 1,
          limit := none, message := none }) := by
  intro userId
  unfold validateAndIncrementRequest ensureUserRecord
  have hnot : ¬(jsOrInt r.request_count 0 ≥ FREE_USER_REQUEST_LIMIT) :=
    not_le.mpr hcount
  simp [hprem, hnot]

/-- Iterating the quota gate from a non-premium record: as long as the
starting count plus the number of calls stays within the limit, every
call is allowed and the count advances by exactly one per call. -/
theorem repeatCalls_free_aux (userId : String) (now : Int) :
    ∀ (n : Nat) (r : UserRecord),
      r.is_premium.getD false = false →
      jsOrInt r.request_count 0 + (n : Int) ≤ FREE_USER_REQUEST_LIMIT →
      (repeatCalls userId now n (some r)).2 = true ∧
      ((repeatCalls userId now n (some r)).1).map
          (fun x => jsOrInt x.request_count 0) =
        some (jsOrInt r.request_count 0 + (n : Int)) := by
  intro n
  induction n with
  | zero =>
      intro r _ _
      simp [repeatCalls]
  | succ n ih =>
      intro r hprem hbound
      have hcount : jsOrInt r.request_count 0 < FREE_USER_REQUEST_LIMIT := by
        have : (0 : Int) < ((n : Int) + 1) := by positivity
        push_cast at hbound
        omega
      have hstep := validate_increment_step r now hprem hcount userId
      have hih := ih { r with
          request_count := some (jsOrInt r.request_count 0 + 1),
          updated_at := some now }
        (by simpa using hprem)
        (by simp only [jsOrInt_some_zero]; push_cast at hbound ⊢; omega)
      simp only [repeatCalls, hstep]
      refine ⟨?_, ?_⟩
      · simp only [Bool.true_and]
        exact hih.1
      · rw [hih.2]
        simp only [jsOrInt_some_zero]
        push_cast
        ring_nf

/-- C5: a non-premium record below the limit is incremented by exactly
one and allowed with the new count; a premium record is allowed with the
count unchanged and no mutation; hence a fresh non-premium user's count
equals `N` after `N` allowed calls, for every `N` below the limit. -/
theorem c5_increment_and_iteration :
    (∀ (r : UserRecord) (now : Int) (userId : String),
      r.is_premium.getD false = false →
      jsOrInt r.request_count 0 < FREE_USER_REQUEST_LIMIT →
      validateAndIncrementRequest userId now (some r) =
        (some { r with request_count := some (jsOrInt r.request_count 0 + 1),
                       updated_at := some now },
          { allowed := true, isPremium := false,
            requestCount := jsOrInt r.request_count 0 + 1,
            limit := none, message := none })) ∧
    (∀ (r : UserRecord) (now : Int) (userId : String),
      r.is_premium.getD false = true →
      validateAndIncrementRequest userId now (some r) =
        (some r,
          { allowed := true, isPremium := true,
            requestCount := jsOrInt r.request_count 0,
            limit := none, message := none })) ∧
    (∀ (userId : String) (now : Int) (N : Nat),
      (N : Int) < FREE_USER_REQUEST_LIMIT →
      (repeatCalls userId now N (ensureUserRecord userId none)).2 = true ∧
      ((repeatCalls userId now N (ensureUserRecord userId none)).1).map
          (fun x => jsOrInt x.request_count 0) = some (N : Int)) := by
  refine ⟨?_, ?_, ?_⟩
  · intro r now userId hprem hcount
    exact validate_increment_step r now hprem hcount userId
  · intro r now userId hprem
    unfold validateAndIncrementRequest ensureUserRecord
    simp [hprem]
  · intro userId now N hN
    have := repeatCalls_free_aux userId now N
      { user_id := userId, request_count := some 0, is_premium := some false,
        subscription_status := none, subscription_end_date := none,
        subscription_id := none, stripe_customer_id := none,
        last_webhook_timestamp := none, updated_at := none }
      (by simp)
      (by simp only [jsOrInt_some_zero]; omega)
    simpa [ensureUserRecord, jsOrInt_some_zero] using this

/-- C5 witness: a non-premium record with two requests advances to
three; a premium record is untouched; four calls from a fresh record are
all allowed and leave the count at four. -/
theorem c5_increment_and_iteration_witness :
    validateAndIncrementRequest "u1" 7 (some recFree2) =
      (some { recFree2 with request_count := some (jsOrInt recFree2.request_count 0 + 1),
                            updated_at := some 7 },
        { allowed := true, isPremium := false,
          requestCount := jsOrInt recFree2.request_count 0 + 1,
          limit := none, message := none }) ∧
    validateAndIncrementRequest "u1" 7 (some recPremium) =
      (some recPremium,
        { allowed := true, isPremium := true,
          requestCount := jsOrInt recPremium.request_count 0,
          limit := none, message := none }) ∧
    (repeatCalls "u1" 7 4 (ensureUserRecord "u1" none)).2 = true ∧
    ((repeatCalls "u1" 7 4 (ensureUserRecord "u1" none)).1).map
        (fun x => jsOrInt x.request_count 0) = some ((4 : Nat) : Int) :=
  ⟨c5_increment_and_iteration.1 recFree2 7 "u1" (by decide) (by decide),
   c5_increment_and_iteration.2.1 recPremium 7 "u1" (by decide),
   c5_increment_and_iteration.2.2 "u1" 7 4 (by decide)⟩

/-- C6: a record whose customer id is already set keeps it through the
ordinary checkout flow: session creation performs no write and binds the
session to the stored id, completing that session re-affirms the same
id, and session creation writes the id only when it was absent. -/
theorem c6_customer_id_stable (r : UserRecord) (c userId fresh : String)
    (now : Int) (hset : r.stripe_customer_id = some c) (hc : c ≠ "") :
    ((createCheckoutSession userId fresh (some r)).1 = some r ∧
      (createCheckoutSession userId fresh (some r)).2.customer = c ∧
      ∃ r', handleCheckoutCompleted
          (sessionObject (createCheckoutSession userId fresh (some r)).2) now
          (createCheckoutSession userId fresh (some r)).1 = some r' ∧
        r'.stripe_customer_id = some c) ∧
    (∀ r₀ : UserRecord, r₀.stripe_customer_id = none →
      (createCheckoutSession userId fresh (some r₀)).1 =
        some { r₀ with stripe_customer_id := some fresh }) := by
  have htruthy : jsTruthyStr r.stripe_customer_id = true := by
    simp [hset, jsTruthyStr, hc]
  have hct : jsTruthyStr (some c) = true := by
    simp [jsTruthyStr, hc]
  have hsess : createCheckoutSession userId fresh (some r) =
      (some r, { customer := c, metadata_userId := some userId }) := by
    unfold createCheckoutSession ensureUserRecord
    simp [hset, hct]
  constructor
  · refine ⟨by rw [hsess], by rw [hsess], ?_⟩
    rw [hsess]
    unfold handleCheckoutCompleted sessionObject
    by_cases hu : jsTruthyStr (some userId) = true
    · simp only [hu, if_pos, ensureUserRecord]
      exact ⟨_, rfl, rfl⟩
    · simp only [Bool.not_eq_true] at hu
      simp only [hu, Bool.false_eq_true, if_false]
      exact ⟨r, rfl, hset⟩
  · intro r₀ h₀
    unfold createCheckoutSession ensureUserRecord
    simp [h₀, jsTruthyStr]

/-- C6 witness: a record holding customer id `cus_1` still holds it
after session creation and checkout completion, and a record without one
gets the freshly created id. -/
theorem c6_customer_id_stable_witness :
    ((createCheckoutSession "u1" "cus_9" (some recPremium)).1 =
        some recPremium ∧
      (createCheckoutSession "u1" "cus_9" (some recPremium)).2.customer =
        "cus_1" ∧
      ∃ r', handleCheckoutCompleted
          (sessionObject (createCheckoutSession "u1" "cus_9"
            (some recPremium)).2) 3
          (createCheckoutSession "u1" "cus_9" (some recPremium)).1 =
          some r' ∧ r'.stripe_customer_id = some "cus_1") ∧
    (createCheckoutSession "u1" "cus_9" (some recFree5)).1 =
      some { recFree5 with stripe_customer_id := some "cus_9" } :=
  ⟨(c6_customer_id_stable recPremium "cus_1" "u1" "cus_9" 3 rfl
      (by decide)).1,
   (c6_customer_id_stable recPremium "cus_1" "u1" "cus_9" 3 rfl
      (by decide)).2 recFree5 rfl⟩

/-- C2 counterexample, two divergences from the claim as stated.
(a) The source probes the top-level `current_period_end` with a JS
truthiness test, so the present value `0` is skipped and the anchor
fallback (1970-01-02 plus one month, epoch-ms `2764800000`) is computed
instead of the claimed `0`.  (b) The source reads the interval count as
`interval_count || 1`, so the present value `0` becomes `1` and the
anchor 1970-01-02 advances by one month to `2764800000` instead of the
claimed zero months (`jsSetMonthAdd` of `0` months, epoch-ms
`86400000`). -/
theorem c2_period_end_claim_false :
    ({ baseObj with current_period_end := some 0 } :
        EventObject).current_period_end = some 0 ∧
    resolvePeriodEnd { baseObj with current_period_end := some 0 } =
      2764800000 ∧
    (2764800000 : Int) ≠ 0 * 1000 ∧
    ({ baseObj with
        plan := some { interval := some "month", interval_count := some 0 } } :
        EventObject).plan.bind Plan.interval_count = some 0 ∧
    resolvePeriodEnd.resolveFallback { baseObj with
        plan := some { interval := some "month",
                       interval_count := some 0 } } = 2764800000 ∧
    jsSetMonthAdd (86400 * 1000) 0 = 86400000 ∧
    (2764800000 : Int) ≠ 86400000 :=
  ⟨rfl, rfl, by decide, rfl, rfl, rfl, by decide⟩

/-- C2 (amended): the period end is the top-level `current_period_end`
when present with a nonzero value; otherwise the current-period-end of
the first item of the subscription's item list when present; otherwise
the billing-cycle anchor advanced by `intervalCount × interval` —
calendar-aware for month and year, `7×count` days for weeks, `count`
days for days — with the interval defaulting to `month` when absent and
the count defaulting to `1` when absent or zero; in particular anchor
`T` with interval `month`, count `3` yields `T` advanced by 3 calendar
months. -/
theorem c2_period_end_resolution (sub : EventObject) :
    (∀ v : Int, sub.current_period_end = some v → v ≠ 0 →
      resolvePeriodEnd sub = v * 1000) ∧
    (jsTruthyInt sub.current_period_end = false →
      ∀ (its : SubItems) (item : SubItem) (rest : List SubItem),
        sub.items = some its → its.data = some (item :: rest) →
        resolvePeriodEnd sub = item.current_period_end * 1000) ∧
    (jsTruthyInt sub.current_period_end = false →
      (sub.items = none ∨
        ∃ its, sub.items = some its ∧
          (its.data = none ∨ its.data = some [])) →
      resolvePeriodEnd sub = resolvePeriodEnd.resolveFallback sub) ∧
    ((sub.plan = none ∨ ∃ p : Plan, sub.plan = some p ∧ p.interval = none) →
      jsOrStr (sub.plan.bind Plan.interval) "month" = "month") ∧
    ((sub.plan = none ∨ ∃ p : Plan, sub.plan = some p ∧
        (p.interval_count = none ∨ p.interval_count = some 0)) →
      jsOrInt (sub.plan.bind Plan.interval_count) 1 = 1) ∧
    (∀ (p : Plan) (cnt : Int), sub.plan = some p →
      p.interval_count = some cnt → cnt ≠ 0 →
      jsOrInt (sub.plan.bind Plan.interval_count) 1 = cnt) ∧
    (∀ cnt : Int, jsOrInt (sub.plan.bind Plan.interval_count) 1 = cnt →
      (jsOrStr (sub.plan.bind Plan.interval) "month" = "month" →
        resolvePeriodEnd.resolveFallback sub =
          jsSetMonthAdd (sub.billing_cycle_anchor * 1000) cnt) ∧
      (jsOrStr (sub.plan.bind Plan.interval) "month" = "year" →
        resolvePeriodEnd.resolveFallback sub =
          jsSetFullYearAdd (sub.billing_cycle_anchor * 1000) cnt) ∧
      (jsOrStr (sub.plan.bind Plan.interval) "month" = "week" →
        resolvePeriodEnd.resolveFallback sub =
          jsAddDays (sub.billing_cycle_anchor * 1000) (7 * cnt)) ∧
      (jsOrStr (sub.plan.bind Plan.interval) "month" = "day" →
        resolvePeriodEnd.resolveFallback sub =
          jsAddDays (sub.billing_cycle_anchor * 1000) cnt)) ∧
    (∀ T : Int, resolvePeriodEnd
        { sub with current_period_end := none, items := none,
                   billing_cycle_anchor := T,
                   plan := some { interval := some "month",
                                  interval_count := some 3 } } =
      jsSetMonthAdd (T * 1000) 3) := by
  refine ⟨?_, ?_, ?_, ?_, ?_, ?_, ?_, ?_⟩
  · intro v hv hnz
    unfold resolvePeriodEnd
    simp [hv, jsTruthyInt, hnz]
  · intro hfalse its item rest hits hdata
    unfold resolvePeriodEnd
    simp [hfalse, hits, hdata]
  · intro hfalse hcase
    unfold resolvePeriodEnd
    rcases hcase with h | ⟨its, hits, h | h⟩
    · simp [hfalse, h]
    · simp [hfalse, hits, h]
    · simp [hfalse, hits, h]
  · intro hcase
    rcases hcase with h | ⟨p, hp, hpi⟩
    · simp [h, jsOrStr, jsTruthyStr]
    · simp [hp, hpi, jsOrStr, jsTruthyStr]
  · intro hcase
    rcases hcase with h | ⟨p, hp, h0 | h0⟩
    · simp [h, jsOrInt, jsTruthyInt]
    · simp [hp, h0, jsOrInt, jsTruthyInt]
    · simp [hp, h0, jsOrInt, jsTruthyInt]
  · intro p cnt hp hpc hcnt
    simp [hp, hpc, jsOrInt, jsTruthyInt, hcnt]
  · intro cnt hcnt
    refine ⟨?_, ?_, ?_, ?_⟩ <;> intro hiv <;>
      unfold resolvePeriodEnd.resolveFallback <;>
      simp [hiv, hcnt]
  · intro T
    unfold resolvePeriodEnd resolvePeriodEnd.resolveFallback
    simp [jsTruthyInt, jsOrStr, jsOrInt, jsTruthyStr]

/-- C2 witness: each resolution branch evaluated on concrete payloads,
including the field-level defaults (absent plan → month with count 1;
plan present with an absent count → count 1) and a present nonzero
count; the month fallback on 2024-11-30T12:00:00Z with count 3 lands on
2025-03-02T12:00:00Z (epoch-ms `1740916800000`), exhibiting the JS
calendar day-overflow. -/
theorem c2_period_end_resolution_witness :
    resolvePeriodEnd { baseObj with current_period_end := some 1234 } =
      1234 * 1000 ∧
    resolvePeriodEnd { baseObj with
        items := some { data := some [{ current_period_end := 555 }] } } =
      (555 : Int) * 1000 ∧
    resolvePeriodEnd.resolveFallback baseObj =
      jsSetMonthAdd (baseObj.billing_cycle_anchor * 1000) 1 ∧
    resolvePeriodEnd.resolveFallback { baseObj with
        plan := some { interval := some "week",
                       interval_count := none } } =
      jsAddDays (86400 * 1000) (7 * 1) ∧
    jsOrInt (({ baseObj with
        plan := some { interval := some "month",
                       interval_count := some 0 } } :
          EventObject).plan.bind Plan.interval_count) 1 = 1 ∧
    jsOrInt (({ baseObj with
        plan := some { interval := some "day",
                       interval_count := some 4 } } :
          EventObject).plan.bind Plan.interval_count) 1 = 4 ∧
    resolvePeriodEnd { baseObj with
        current_period_end := none
        items := none
        billing_cycle_anchor := 1732968000
        plan := some { interval := some "month",
                       interval_count := some 3 } } =
      jsSetMonthAdd (1732968000 * 1000) 3 ∧
    jsSetMonthAdd (1732968000 * 1000) 3 = 1740916800000 :=
  ⟨(c2_period_end_resolution
      { baseObj with current_period_end := some 1234 }).1 1234 rfl
      (by decide),
   (c2_period_end_resolution { baseObj with
      items := some { data := some [{ current_period_end := 555 }] } }).2.1
      rfl { data := some [{ current_period_end := 555 }] }
      { current_period_end := 555 } [] rfl rfl,
   ((c2_period_end_resolution baseObj).2.2.2.2.2.2.1 1 rfl).1
      ((c2_period_end_resolution baseObj).2.2.2.1 (Or.inl rfl)),
   ((c2_period_end_resolution { baseObj with
      plan := some { interval := some "week",
                     interval_count := none } }).2.2.2.2.2.2.1 1
      ((c2_period_end_resolution { baseObj with
        plan := some { interval := some "week",
                       interval_count := none } }).2.2.2.2.1
        (Or.inr ⟨{ interval := some "week", interval_count := none },
          rfl, Or.inl rfl⟩))).2.2.1 rfl,
   (c2_period_end_resolution { baseObj with
      plan := some { interval := some "month",
                     interval_count := some 0 } }).2.2.2.2.1
      (Or.inr ⟨{ interval := some "month", interval_count := some 0 },
        rfl, Or.inr rfl⟩),
   (c2_period_end_resolution { baseObj with
      plan := some { interval := some "day",
                     interval_count := some 4 } }).2.2.2.2.2.1
      { interval := some "day", interval_count := some 4 } 4 rfl rfl
      (by decide),
   (c2_period_end_resolution baseObj).2.2.2.2.2.2.2 1732968000,
   rfl⟩

end Porki
